import Mathlib

/-!
Shallow embedding of the `dk154_mock` observatory simulator, together with
proofs checking the natural-language specification against the code.

Conventions used throughout:
* Wall-clock times and device positions are rationals (`ℚ`): the Python code
  uses floats, but every comparison and arithmetic step relevant to the
  properties below is exact, so `ℚ` is a faithful model of the arithmetic
  actually performed.
* A Python function that can `raise` is modelled as returning
  `Except PyExc α`; mutation of `self` becomes explicit state passing.
* Python dictionaries (`loaded_parameters`, query parameters) are modelled
  as association lists with first-match lookup; `dict.update` overwrites
  existing bindings and appends new ones.
-/

deriving instance DecidableEq for Except

/-- Python exception kinds that the modelled code can raise. -/
inductive PyExc where
  | valueError (msg : String)
  | indexError
  | keyError (key : String)
  | zeroDivisionError
  | notImplementedError
  | attributeError
  deriving Repr, DecidableEq

/-- Rendering of Python `type(e)` used in the ASCOL error token
`f"ERR [\x7btype(e)\x7d]"`, e.g. `ERR [<class \x27ValueError\x27>]`. -/
def pyExcTypeStr : PyExc → String
  | PyExc.valueError _ => "<class \x27ValueError\x27>"
  | PyExc.indexError => "<class \x27IndexError\x27>"
  | PyExc.keyError _ => "<class \x27KeyError\x27>"
  | PyExc.zeroDivisionError => "<class \x27ZeroDivisionError\x27>"
  | PyExc.notImplementedError => "<class \x27NotImplementedError\x27>"
  | PyExc.attributeError => "<class \x27AttributeError\x27>"

/-- Python `str.rstrip()`: drop trailing whitespace. -/
def pyRstrip (s : String) : String :=
  String.mk (List.reverse (s.data.reverse.dropWhile Char.isWhitespace))

/-- Helper for `pySplit`: walk the characters, accumulating the
current (reversed) token. -/
def pySplitAux : List Char → List Char → List String
  | [], acc => if acc.isEmpty then [] else [String.mk acc.reverse]
  | c :: cs, acc =>
    if c.isWhitespace then
      if acc.isEmpty then pySplitAux cs []
      else String.mk acc.reverse :: pySplitAux cs []
    else pySplitAux cs (c :: acc)

/-- Python `str.split()` with no argument: split on whitespace runs,
discarding empty tokens. -/
def pySplit (s : String) : List String :=
  pySplitAux s.data []

/-- Python `str.lower()` (commands here are ASCII). -/
def pyLower (s : String) : String :=
  String.mk (s.data.map Char.toLower)

/-- First-match association-list lookup: Python `dict.get(k, None)`. -/
def dictGet (d : List (String × α)) (k : String) : Option α :=
  match d with
  | [] => none
  | (k0, v) :: rest => if k0 = k then some v else dictGet rest k

/-- Python `dict.pop(k, None)`: remove the binding of `k` (if any). -/
def dictPop (d : List (String × α)) (k : String) : List (String × α) :=
  d.filter (fun kv => kv.1 ≠ k)

/-- Python `d[k] = v`: overwrite the binding of `k`, or append it. -/
def dictSet (d : List (String × α)) (k : String) (v : α) : List (String × α) :=
  match d with
  | [] => [(k, v)]
  | (k0, v0) :: rest => if k0 = k then (k0, v) :: rest else (k0, v0) :: dictSet rest k v

/-- Python `d.update(params)`: set every binding of `params` in order. -/
def dictUpdate (d params : List (String × α)) : List (String × α) :=
  params.foldl (fun acc kv => dictSet acc kv.1 kv.2) d

/-- Python `%` on floats with a positive modulus: result in `[0, m)`. -/
def pyMod (a m : ℚ) : ℚ := a - m * ⌊a / m⌋

/- ------------------------------------------------------------------
DFOSC instrument protocol (`mock_dfosc_server.py`).
------------------------------------------------------------------ -/

/-- The whole-word mnemonics recognised verbatim by `dfosc_callback`
(`command.lower() in ["g", "a", "f", "gidfoc", "aidfoc", "fidfoc"]`). -/
def DFOSC_WHOLE_WORDS : List String := ["g", "a", "f", "gidfoc", "aidfoc", "fidfoc"]

/-- The responder-code computation at the top of
`MockDfoscServer.dfosc_callback`: keep a known whole word verbatim,
otherwise take the first two characters, normalise `<letter><digit>` to
`<letter>N`, and lower-case.  Indexing `responder_code[1]` raises
`IndexError` when the command is shorter than two characters. -/
def dfoscDecode (command : String) : Except PyExc String :=
  if DFOSC_WHOLE_WORDS.contains (pyLower command) then
    Except.ok command
  else
    match command.data with
    | [] => Except.error PyExc.indexError
    | [_] => Except.error PyExc.indexError
    | c0 :: c1 :: _ =>
      if ("0123456789".data).contains c1 then
        Except.ok (pyLower (String.mk [c0] ++ "N"))
      else
        Except.ok (pyLower (String.mk [c0, c1]))

/-- Names of the bound methods appearing in
`MockDfoscServer._set_responders`. -/
inductive DfoscHandler where
  | gi_response | gg_response | gm_response | gp_response | gn_response
  | gq_response | gx_response | g_response | gidfoc_response
  | ai_response | ag_response | am_response | ap_response | an_response
  | aq_response | ax_response | a_response | aidfoc_response
  | fi_response | fg_response | fm_response | fp_response | fn_response
  | fq_response | fx_response | f_response | fidfoc_response
  deriving Repr, DecidableEq

/-- The `responders_lookup` dict of `MockDfoscServer._set_responders`.
The Python source writes the key `"aidfoc"` twice (first bound to
`gidfoc_response`, then to `aidfoc_response`); a Python dict keeps the
last value, so the finished dict has a single `"aidfoc"` entry bound to
`aidfoc_response`, and no `"gidfoc"` key at all. -/
def dfoscResponders : List (String × DfoscHandler) :=
  [("gi", DfoscHandler.gi_response), ("gg", DfoscHandler.gg_response),
   ("gm", DfoscHandler.gm_response), ("gp", DfoscHandler.gp_response),
   ("gn", DfoscHandler.gn_response), ("gq", DfoscHandler.gq_response),
   ("gx", DfoscHandler.gx_response), ("g", DfoscHandler.g_response),
   ("aidfoc", DfoscHandler.aidfoc_response),
   ("ai", DfoscHandler.ai_response), ("ag", DfoscHandler.ag_response),
   ("am", DfoscHandler.am_response), ("ap", DfoscHandler.ap_response),
   ("an", DfoscHandler.an_response), ("aq", DfoscHandler.aq_response),
   ("ax", DfoscHandler.ax_response), ("a", DfoscHandler.a_response),
   ("fi", DfoscHandler.fi_response), ("fg", DfoscHandler.fg_response),
   ("fm", DfoscHandler.fm_response), ("fp", DfoscHandler.fp_response),
   ("fn", DfoscHandler.fn_response), ("fq", DfoscHandler.fq_response),
   ("fx", DfoscHandler.fx_response), ("f", DfoscHandler.f_response),
   ("fidfoc", DfoscHandler.fidfoc_response)]

/-- Decode a raw command and look up its responder, as `dfosc_callback`
does (`self.responders_lookup.get(responder_code, None)`). -/
def dfoscLookup (command : String) : Except PyExc (Option DfoscHandler) :=
  match dfoscDecode command with
  | Except.error e => Except.error e
  | Except.ok code => Except.ok (dictGet dfoscResponders code)

/-- C7: the instrument-protocol decoder maps `"G5"` to the quick-preset
handler `gn_response`, `"GG012345"` to the absolute-move handler
`gg_response`, and the bare command `"g"` to the readiness-query handler
`g_response`. -/
theorem C7_dfosc_decoding :
    dfoscLookup "G5" = Except.ok (some DfoscHandler.gn_response) ∧
    dfoscLookup "GG012345" = Except.ok (some DfoscHandler.gg_response) ∧
    dfoscLookup "g" = Except.ok (some DfoscHandler.g_response) := by
  refine ⟨?_, ?_, ?_⟩ <;> rfl

/- ------------------------------------------------------------------
DFOSC wheel positions (`mock_dfosc.py` + move responders in
`mock_dfosc_server.py`).
------------------------------------------------------------------ -/

/-- `MockDfosc.MAX_POSITION`. -/
def MAX_POSITION : ℤ := 320000

/-- `MockDfosc.INTEGER_STEP`. -/
def INTEGER_STEP : ℤ := 40000

/-- Initial `MockDfosc._grism_position`. -/
def grismInitPosition : ℤ := 120000

/-- The position clamp shared by `grism_move_position`,
`aperture_move_position` and `filter_move_position`: positions at or
above `MAX_POSITION` are reduced modulo `MAX_POSITION`; anything below
(including negative targets) is stored unchanged.  Python `%` with a
positive modulus agrees with `Int.emod` here. -/
def move_position (pos : ℤ) : ℤ :=
  if pos ≥ MAX_POSITION then pos % MAX_POSITION else pos

/-- The four move-command shapes of the instrument protocol, with the
integer already parsed from the command tail as the responders do
(`int(command[2:])` accepts a leading minus sign). -/
inductive DfoscMoveCmd where
  | absolute (arg : ℤ)
  | relative (arg : ℤ)
  | preset (n : ℕ)
  | zero
  deriving Repr, DecidableEq

/-- One move command applied to a stored wheel position: `gg`/`ag`/`fg`
move to the argument, `gm`/`am`/`fm` move to current + argument,
`gn`/`an`/`fn` move to `n * INTEGER_STEP`, `gx`/`ax`/`fx` move to 0;
all through `move_position`. -/
def applyMoveCmd (curr : ℤ) (c : DfoscMoveCmd) : ℤ :=
  match c with
  | DfoscMoveCmd.absolute a => move_position a
  | DfoscMoveCmd.relative a => move_position (curr + a)
  | DfoscMoveCmd.preset n => move_position ((n : ℤ) * INTEGER_STEP)
  | DfoscMoveCmd.zero => move_position 0

/-- A sequence of move commands applied to a stored position. -/
def runMoveCmds (curr : ℤ) (cs : List DfoscMoveCmd) : ℤ :=
  cs.foldl applyMoveCmd curr

/-- Decimal digit characters of a natural number, most significant
first (the digits of Python `repr`). -/
def natDigitChars (n : ℕ) : List Char :=
  if h : n < 10 then [Char.ofNat (48 + n)]
  else natDigitChars (n / 10) ++ [Char.ofNat (48 + n % 10)]
termination_by n
decreasing_by exact Nat.div_lt_self (by omega) (by omega)

/-- Left-pad a character list with `0` to width `k`. -/
def padZeros (k : ℕ) (cs : List Char) : List Char :=
  List.replicate (k - cs.length) '0' ++ cs

/-- Python `f"\x7bpos:06d\x7d"` as used by `gp_response`/`ap_response`/
`fp_response`: decimal representation zero-padded to total width 6 (the
sign counts toward the width for negative values). -/
def format06 (p : ℤ) : String :=
  if p < 0 then String.mk ('-' :: padZeros 5 (natDigitChars (-p).toNat))
  else String.mk (padZeros 6 (natDigitChars p.toNat))

/-- C8 counterexample: from the initial grism position, the absolute
move command `GG-00001` (a legal wire command, since `int("-00001")`
parses) stores the negative position `-1`, refuting the claim that
every stored position remains non-negative. -/
theorem C8_counterexample :
    runMoveCmds grismInitPosition [DfoscMoveCmd.absolute (-1)] < 0 := by
  decide

theorem charOfDigit_isDigit {d : ℕ} (hd : d < 10) : (Char.ofNat (48 + d)).isDigit := by
  interval_cases d <;> decide

theorem natDigitChars_length_le {k n : ℕ} (hk : 1 ≤ k) (hn : n < 10 ^ k) :
    (natDigitChars n).length ≤ k := by
  induction k generalizing n with
  | zero => omega
  | succ k ih =>
    rw [natDigitChars]
    split
    · simp only [List.length_singleton]
      omega
    · next h =>
      have h10 : n / 10 < 10 ^ k := by
        rw [Nat.div_lt_iff_lt_mul (by norm_num)]
        calc n < 10 ^ (k + 1) := hn
        _ = 10 ^ k * 10 := by rw [pow_succ]
      rcases Nat.eq_zero_or_pos k with rfl | hkpos
      · simp only [pow_zero] at h10
        omega
      · have := ih hkpos h10
        simp only [List.length_append, List.length_singleton]
        omega

theorem natDigitChars_isDigit : ∀ (n : ℕ), ∀ c ∈ natDigitChars n, c.isDigit := by
  intro n
  induction n using Nat.strong_induction_on with
  | _ n ih =>
    rw [natDigitChars]
    split
    · next h =>
      intro c hc
      simp only [List.mem_singleton] at hc
      subst hc
      exact charOfDigit_isDigit h
    · next h =>
      intro c hc
      rw [List.mem_append] at hc
      rcases hc with hc | hc
      · exact ih (n / 10) (Nat.div_lt_self (by omega) (by omega)) c hc
      · simp only [List.mem_singleton] at hc
        subst hc
        exact charOfDigit_isDigit (Nat.mod_lt _ (by omega))

/-- Argument guard for the amended C8: the parsed integer argument of an
absolute or relative move is non-negative (preset and zero commands
carry no signed argument). -/
def moveCmdArgOk : DfoscMoveCmd → Bool
  | DfoscMoveCmd.absolute a => decide (0 ≤ a)
  | DfoscMoveCmd.relative a => decide (0 ≤ a)
  | DfoscMoveCmd.preset _ => true
  | DfoscMoveCmd.zero => true

theorem move_position_bounds {p : ℤ} (hp : 0 ≤ p) :
    0 ≤ move_position p ∧ move_position p < MAX_POSITION := by
  unfold move_position
  split
  · exact ⟨Int.emod_nonneg _ (by norm_num [MAX_POSITION]),
      Int.emod_lt_of_pos _ (by norm_num [MAX_POSITION])⟩
  · next h => exact ⟨hp, by omega⟩

theorem applyMoveCmd_bounds {p : ℤ} {c : DfoscMoveCmd}
    (hp : 0 ≤ p) (hc : moveCmdArgOk c = true) :
    0 ≤ applyMoveCmd p c ∧ applyMoveCmd p c < MAX_POSITION := by
  cases c with
  | absolute a =>
    simp only [moveCmdArgOk, decide_eq_true_eq] at hc
    exact move_position_bounds hc
  | relative a =>
    simp only [moveCmdArgOk, decide_eq_true_eq] at hc
    exact move_position_bounds (by omega)
  | preset n =>
    exact move_position_bounds
      (mul_nonneg (Int.natCast_nonneg n) (by norm_num [INTEGER_STEP]))
  | zero =>
    exact move_position_bounds le_rfl

theorem runMoveCmds_bounds {p : ℤ} {cs : List DfoscMoveCmd}
    (hp : 0 ≤ p ∧ p < MAX_POSITION) (hcs : ∀ c ∈ cs, moveCmdArgOk c = true) :
    0 ≤ runMoveCmds p cs ∧ runMoveCmds p cs < MAX_POSITION := by
  induction cs generalizing p with
  | nil => simpa [runMoveCmds] using hp
  | cons c rest ih =>
    simp only [runMoveCmds, List.foldl_cons] at ih ⊢
    exact ih (applyMoveCmd_bounds hp.1 (hcs c (List.mem_cons_self _ _)))
      (fun d hd => hcs d (List.mem_cons_of_mem _ hd))

theorem format06_digits {p : ℤ} (h0 : 0 ≤ p) (h6 : p < 1000000) :
    (format06 p).length = 6 ∧ ∀ c ∈ (format06 p).data, c.isDigit := by
  have hlt : ¬ p < 0 := by omega
  have hlen : (natDigitChars p.toNat).length ≤ 6 := by
    refine natDigitChars_length_le (by norm_num) ?_
    have : (p.toNat : ℤ) = p := Int.toNat_of_nonneg h0
    omega
  constructor
  · simp only [format06, hlt, if_false, String.length]
    simp only [padZeros, List.length_append, List.length_replicate]
    omega
  · intro c hc
    simp only [format06, hlt, if_false] at hc
    simp only [padZeros, List.mem_append, List.mem_replicate] at hc
    rcases hc with ⟨-, rfl⟩ | hc
    · decide
    · exact natDigitChars_isDigit _ c hc

/-- C8 (amended): under any sequence of instrument-protocol move
commands whose absolute/relative integer arguments are non-negative,
each stored grism/aperture/filter position stays a non-negative integer
strictly below `MAX_POSITION`, and the position query renders it as a
zero-padded string of exactly 6 decimal digits.  (Unrestricted, the
claim is false: the code reduces modulo `MAX_POSITION` only on the high
side, so a negative commanded target is stored negative, see
`C8_counterexample`.) -/
theorem C8_positions_bounded (start : ℤ) (cs : List DfoscMoveCmd)
    (hstart : 0 ≤ start ∧ start < MAX_POSITION)
    (hcs : ∀ c ∈ cs, moveCmdArgOk c = true) :
    (0 ≤ runMoveCmds start cs ∧ runMoveCmds start cs < MAX_POSITION) ∧
    (format06 (runMoveCmds start cs)).length = 6 ∧
    ∀ c ∈ (format06 (runMoveCmds start cs)).data, c.isDigit := by
  have hb := runMoveCmds_bounds hstart hcs
  refine ⟨hb, format06_digits hb.1 ?_⟩
  have := hb.2
  unfold MAX_POSITION at this
  omega

/-- Witness for `C8_positions_bounded`: the initial grism position with
a relative move of +250000 (wrapping past `MAX_POSITION`) followed by
quick preset 5. -/
theorem C8_positions_bounded_witness :
    (0 ≤ runMoveCmds grismInitPosition
        [DfoscMoveCmd.relative 250000, DfoscMoveCmd.preset 5] ∧
      runMoveCmds grismInitPosition
        [DfoscMoveCmd.relative 250000, DfoscMoveCmd.preset 5] < MAX_POSITION) ∧
    (format06 (runMoveCmds grismInitPosition
        [DfoscMoveCmd.relative 250000, DfoscMoveCmd.preset 5])).length = 6 ∧
    ∀ c ∈ (format06 (runMoveCmds grismInitPosition
        [DfoscMoveCmd.relative 250000, DfoscMoveCmd.preset 5])).data, c.isDigit :=
  C8_positions_bounded grismInitPosition
    [DfoscMoveCmd.relative 250000, DfoscMoveCmd.preset 5]
    (by decide) (by decide)

/- ------------------------------------------------------------------
CCD3 camera (`mock_ccd3.py` + `mock_ccd3_server.py`).
------------------------------------------------------------------ -/

/-- A parameter value: the HTTP framer coerces the names listed in
`FLOAT_PARAMETERS` (only `CCD3.exposure`) to float, everything else
stays a string. -/
inductive PVal where
  | str (s : String)
  | num (q : ℚ)
  deriving Repr, DecidableEq

/-- `MockCcd3.READ_TIME`. -/
def READ_TIME : ℚ := 30

/-- Module-level camera state code `CAMERA_READING`. -/
def CAMERA_READING : ℤ := 2

/-- Module-level camera state code `CAMERA_EXPOSING_SHUTTER_OPEN`. -/
def CAMERA_EXPOSING_SHUTTER_OPEN : ℤ := 67108865

/-- Module-level tuple `EXPECTED_PARAMETERS` of `mock_ccd3.py`. -/
def EXPECTED_PARAMETERS : List String :=
  ["async", "CCD3.exposure", "CCD3.IMAGETYP", "CCD3.OBJECT",
   "WASA.filter", "WASB.filter"]

/-- Module-level dict `DEFAULT_CCD3_PARAMETERS` of `mock_ccd3.py`. -/
def DEFAULT_CCD3_PARAMETERS : List (String × PVal) :=
  [("gain", PVal.num 1), ("bias_value", PVal.num 1200),
   ("ccd_xlen", PVal.num 2148), ("ccdy_len", PVal.num 2064),
   ("current", PVal.num (1/10)), ("bad_columns", PVal.num 8),
   ("hot_pix", PVal.num (1/10000)), ("sky_counts", PVal.num 4),
   ("overscan", PVal.num 100), ("plate_scale", PVal.num (396/1000)),
   ("pix_size", PVal.num (135/10000))]

/-- The mutable state of a `MockCcd3` instance (paths and the
write-data flag carry no protocol-visible state beyond what is kept
here). -/
structure Ccd3State where
  ccd_state : ℤ
  exposure_starttime : ℚ
  loaded_parameters : List (String × PVal)
  exposure_started : Bool
  ccd_parameters : List (String × PVal)
  deriving Repr, DecidableEq

/-- `MockCcd3.__init__`. -/
def initCcd3 : Ccd3State :=
  { ccd_state := 0, exposure_starttime := 0, loaded_parameters := [],
    exposure_started := false, ccd_parameters := DEFAULT_CCD3_PARAMETERS }

/-- `MockCcd3.set_ccd_state`, recomputing the state code from the wall
clock `now`.  `float(exptime)` and the comparison `dt < exptime` need a
numeric exposure value; the HTTP framer always stores `CCD3.exposure`
as a float, and a non-numeric value is modelled as the error the Python
conversion/comparison would raise. -/
def set_ccd_state (st : Ccd3State) (now : ℚ) : Except PyExc Ccd3State :=
  match dictGet st.loaded_parameters "CCD3.exposure" with
  | none => Except.ok st
  | some v =>
    if st.exposure_started then
      match v with
      | PVal.str _ => Except.error (PyExc.valueError "non-numeric CCD3.exposure")
      | PVal.num exptime =>
        let total_image_time := exptime + READ_TIME
        let dt := now - st.exposure_starttime
        if dt < total_image_time then
          if dt < exptime then
            Except.ok { st with ccd_state := CAMERA_EXPOSING_SHUTTER_OPEN }
          else
            Except.ok { st with ccd_state := CAMERA_READING }
        else
          Except.ok { st with exposure_started := false,
                              loaded_parameters :=
                                EXPECTED_PARAMETERS.foldl dictPop st.loaded_parameters,
                              ccd_state := 0 }
    else Except.ok st

/-- `MockCcd3.get_ccd_state`: recompute, then return the state code. -/
def get_ccd_state (st : Ccd3State) (now : ℚ) : Except PyExc (Ccd3State × ℤ) :=
  match set_ccd_state st now with
  | Except.error e => Except.error e
  | Except.ok st2 => Except.ok (st2, st2.ccd_state)

/-- `MockCcd3.take_exposure` restricted to its effect on the modelled
state: it sets `exposure_started` and (when writing mock data) reads
`loaded_parameters["CCD3.exposure"]`, raising `KeyError` if absent.
Frame synthesis and the FITS write are I/O, outside the model.  Note
that the method never writes `_exposure_starttime`. -/
def take_exposure (st : Ccd3State) (write_mock_data : Bool) : Except PyExc Ccd3State :=
  let st2 : Ccd3State := { st with exposure_started := true }
  if write_mock_data then
    match dictGet st2.loaded_parameters "CCD3.exposure" with
    | none => Except.error (PyExc.keyError "CCD3.exposure")
    | some _ => Except.ok st2
  else Except.ok st2

/-- `MockCcd3.set_exposure_parameters`: reject any parameter name
outside `EXPECTED_PARAMETERS` before merging. -/
def set_exposure_parameters (st : Ccd3State) (parameters : List (String × PVal)) :
    Except PyExc Ccd3State :=
  let unexpected :=
    (parameters.map Prod.fst).filter (fun k => !(EXPECTED_PARAMETERS.contains k))
  if 0 < unexpected.length then
    Except.error (PyExc.valueError "unexpected parameters")
  else
    Except.ok { st with loaded_parameters := dictUpdate st.loaded_parameters parameters }

/-- Outcome of one camera HTTP request. -/
inductive HttpOutcome where
  | ok200 (state : ℤ)
  | err400 (msg : String)
  | raised (e : PyExc)
  deriving Repr, DecidableEq

/-- The `mset` branch of `Ccd3RequestHandler.do_GET`: load the parsed
query parameters, then report the recomputed state as a 200 JSON body.
The branch is not wrapped in a handler-level `try`, so an exception
escapes `do_GET` (modelled as `HttpOutcome.raised`) and the `ccd3`
object keeps the state it had when the exception was raised. -/
def msetAction (st : Ccd3State) (parameters : List (String × PVal)) (now : ℚ) :
    Ccd3State × HttpOutcome :=
  match set_exposure_parameters st parameters with
  | Except.error e => (st, HttpOutcome.raised e)
  | Except.ok st1 =>
    match get_ccd_state st1 now with
    | Except.error e => (st1, HttpOutcome.raised e)
    | Except.ok (st2, code) => (st2, HttpOutcome.ok200 code)

/-- A camera with `CCD3.exposure = 10` loaded via `mset`. -/
def ccd3Loaded10 : Ccd3State :=
  { initCcd3 with loaded_parameters := [("CCD3.exposure", PVal.num 10)] }

/-- C2: `take_exposure` never records `_exposure_starttime` (it is
written only in `__init__`, as 0.0), so `set_ccd_state` measures the
elapsed time from wall-clock 0 rather than from the exposure start.
Starting a 10 s exposure at wall-clock time 1000 and querying
immediately (0 s since the exposure started, so the claim requires the
`exposing, shutter open` code 67108865) instead clears the loaded
parameters and returns the idle state 0. -/
theorem C2_exposure_timer_never_runs :
    take_exposure ccd3Loaded10 true =
      Except.ok { ccd3Loaded10 with exposure_started := true } ∧
    ({ ccd3Loaded10 with exposure_started := true } : Ccd3State).exposure_starttime = 0 ∧
    (∃ st2, get_ccd_state { ccd3Loaded10 with exposure_started := true } 1000 =
        Except.ok (st2, 0) ∧
      st2.exposure_started = false ∧
      dictGet st2.loaded_parameters "CCD3.exposure" = none) ∧
    (0 : ℤ) ≠ CAMERA_EXPOSING_SHUTTER_OPEN := by
  refine ⟨rfl, rfl, ?_, by decide⟩
  have hlt : ¬ ((1000 : ℚ) < 10 + READ_TIME) := by norm_num [READ_TIME]
  refine ⟨{ ccd_state := 0, exposure_starttime := 0, loaded_parameters := [],
            exposure_started := false, ccd_parameters := DEFAULT_CCD3_PARAMETERS },
    ?_, rfl, rfl⟩
  simp [get_ccd_state, set_ccd_state, ccd3Loaded10, initCcd3, dictGet, hlt,
    EXPECTED_PARAMETERS, dictPop]

/-- C9: an `mset` request whose parameter dictionary contains any name
outside `EXPECTED_PARAMETERS` raises out of the handler (no 200
response) and leaves the camera state — in particular its
`loaded_parameters` — exactly as it was: no key of the rejected
dictionary is merged in. -/
theorem C9_mset_unknown_param (st : Ccd3State) (parameters : List (String × PVal))
    (now : ℚ)
    (h : ∃ k ∈ parameters.map Prod.fst, k ∉ EXPECTED_PARAMETERS) :
    ∃ e, msetAction st parameters now = (st, HttpOutcome.raised e) := by
  obtain ⟨k, hk, hnk⟩ := h
  have hmem : k ∈ (parameters.map Prod.fst).filter
      (fun k => !(EXPECTED_PARAMETERS.contains k)) :=
    List.mem_filter.mpr ⟨hk, by simpa using hnk⟩
  have hpos : 0 < ((parameters.map Prod.fst).filter
      (fun k => !(EXPECTED_PARAMETERS.contains k))).length :=
    List.length_pos.mpr (List.ne_nil_of_mem hmem)
  refine ⟨PyExc.valueError "unexpected parameters", ?_⟩
  unfold msetAction set_exposure_parameters
  simp only [hpos, if_pos]

/-- Witness for `C9_mset_unknown_param`: `mset` with the misspelled
parameter name `CCD3.exposur` against a camera that already has an
object name loaded. -/
theorem C9_mset_unknown_param_witness :
    ∃ e, msetAction { initCcd3 with loaded_parameters := [("CCD3.OBJECT", PVal.str "M31")] }
        [("CCD3.exposur", PVal.num 10)] 0 =
      ({ initCcd3 with loaded_parameters := [("CCD3.OBJECT", PVal.str "M31")] },
        HttpOutcome.raised e) :=
  C9_mset_unknown_param _ _ 0 (by decide)

/-- The telescope state touched by the camera `expose` path. -/
structure TelShutterState where
  shutter_pos : String
  deriving Repr, DecidableEq

/-- `MockTelescope.set_shutter_pos`: accepts only `"0"` / `"1"`. -/
def set_shutter_pos (st : TelShutterState) (open_close : String) :
    Except PyExc TelShutterState :=
  if open_close = "0" ∨ open_close = "1" then
    Except.ok { st with shutter_pos := open_close }
  else
    Except.error (PyExc.valueError "Unknown shutter position")

/-- Module-level dict `ccd3_to_ascol_shutter` of `mock_ccd3_server.py`
(the CCD3 and ASCOL conventions are opposite). -/
def ccd3_to_ascol_shutter : List (String × String) := [("0", "1"), ("1", "0")]

/-- Where the `expose` branch of `Ccd3RequestHandler.do_GET` ends, up to
the `fe` filepath check.  The remainder of the branch (the `ccd`
parameter check, header composition, `take_exposure`, 200 response) is
only reached through `proceed` and is not needed for the properties
proved here. -/
inductive ExposeStep where
  | badShutter (tel : TelShutterState)
  | missingFe (tel : TelShutterState)
  | proceed (tel : TelShutterState) (fe : PVal)
  deriving Repr, DecidableEq

/-- The `expose` branch of `Ccd3RequestHandler.do_GET` from its start to
the `fe` check, in source order: read `CCD3.SHUTTER` from
`ccd3.ccd_parameters` (defaulting to `"0"` = open), 400 on an invalid
value, invert it through `ccd3_to_ascol_shutter`, write the telescope
shutter, and only then 400 if the query has no `fe` parameter.
`badShutter` and `missingFe` both denote `send_error(400, ...)`
followed by `return`. -/
def exposeBranch (tel : TelShutterState) (ccd : Ccd3State)
    (parameters : List (String × PVal)) : Except PyExc ExposeStep :=
  let shutter_param :=
    match dictGet ccd.ccd_parameters "CCD3.SHUTTER" with
    | none => PVal.str "0"
    | some v => v
  match shutter_param with
  | PVal.num _ => Except.ok (ExposeStep.badShutter tel)
  | PVal.str s =>
    if s = "0" ∨ s = "1" then
      match dictGet ccd3_to_ascol_shutter s with
      | none => Except.error (PyExc.keyError s)
      | some ascol =>
        match set_shutter_pos tel ascol with
        | Except.error e => Except.error e
        | Except.ok tel2 =>
          match dictGet parameters "fe" with
          | none => Except.ok (ExposeStep.missingFe tel2)
          | some fe => Except.ok (ExposeStep.proceed tel2 fe)
    else Except.ok (ExposeStep.badShutter tel)

/-- C10: an `expose` request with a valid (or absent, hence defaulted)
`CCD3.SHUTTER` parameter but no `fe` filepath parameter answers 400
without reaching the exposure — yet the telescope shutter position has
already been overwritten with the ASCOL-inverted shutter value before
the 400 is sent, so the error path is not atomic with respect to the
shared telescope state. -/
theorem C10_expose_mutates_shutter_before_400 (tel : TelShutterState)
    (ccd : Ccd3State) (parameters : List (String × PVal)) (s : String)
    (hshutter : dictGet ccd.ccd_parameters "CCD3.SHUTTER" = some (PVal.str s) ∨
      (dictGet ccd.ccd_parameters "CCD3.SHUTTER" = none ∧ s = "0"))
    (hs : s = "0" ∨ s = "1")
    (hfe : dictGet parameters "fe" = none) :
    ∃ ascol, dictGet ccd3_to_ascol_shutter s = some ascol ∧ ascol ≠ s ∧
      exposeBranch tel ccd parameters =
        Except.ok (ExposeStep.missingFe { shutter_pos := ascol }) := by
  rcases hs with rfl | rfl <;>
    rcases hshutter with hget | ⟨hget, hs0⟩ <;>
      first
        | exact absurd hs0 (by decide)
        | exact ⟨"1", rfl, by decide, by
            simp [exposeBranch, hget, ccd3_to_ascol_shutter, dictGet,
              set_shutter_pos, hfe]⟩
        | exact ⟨"0", rfl, by decide, by
            simp [exposeBranch, hget, ccd3_to_ascol_shutter, dictGet,
              set_shutter_pos, hfe]⟩

/-- Witness for `C10_expose_mutates_shutter_before_400`: a fresh camera
(no `CCD3.SHUTTER` key, so the shutter defaults to `"0"` = open), a
telescope whose shutter reads `"0"`, and an `expose` query carrying
only `ccd=CCD3`. -/
theorem C10_expose_mutates_shutter_before_400_witness :
    ∃ ascol, dictGet ccd3_to_ascol_shutter "0" = some ascol ∧ ascol ≠ "0" ∧
      exposeBranch { shutter_pos := "0" } initCcd3 [("ccd", PVal.str "CCD3")] =
        Except.ok (ExposeStep.missingFe { shutter_pos := ascol }) :=
  C10_expose_mutates_shutter_before_400 { shutter_pos := "0" } initCcd3
    [("ccd", PVal.str "CCD3")] "0" (Or.inr ⟨by decide, rfl⟩) (Or.inl rfl) (by decide)

/- ------------------------------------------------------------------
Dome (`mock_telescope.py`: set_dome_position / go_dome_position /
_update_dome_position / _update_dome_state).
------------------------------------------------------------------ -/

/-- `MockTelescope.DOME_MOVE_RATE` (0.2 deg/sec). -/
def DOME_MOVE_RATE : ℚ := 1/5

/-- `MockTelescope.DOME_PARKED_POSITION`. -/
def DOME_PARKED_POSITION : ℚ := 10

/-- The dome-related state of a `MockTelescope` instance.  `dome_delta`
and `old_dome_pos` are the `loaded_parameters` entries of those names. -/
structure DomeState where
  dome_position : ℚ
  dome_state : String
  dome_moving : Bool
  dome_auto : Bool
  dome_parking : Bool
  dome_stopped : Bool
  dome_move_time : Option ℚ
  dome_move_starttime : ℚ
  dome_delta : Option ℚ
  old_dome_pos : Option ℚ
  deriving Repr, DecidableEq

/-- `MockTelescope._update_dome_position`, at wall-clock `now`.  The
checks appear in source order; `f = dt / self.dome_move_time` on floats
raises `ZeroDivisionError` when the stored move time is 0 (a zero-angle
move), modelled explicitly since `ℚ` division by zero would silently
give 0. -/
def update_dome_position (st : DomeState) (now : ℚ) : Except PyExc DomeState :=
  match st.dome_delta with
  | none => Except.ok st
  | some dome_delta =>
    if ¬ st.dome_moving then
      Except.error (PyExc.valueError "why is _dome_moving==False if dome_delta not None?")
    else
      match st.old_dome_pos with
      | none => Except.error (PyExc.keyError "old_dome_pos")
      | some old_dome_pos =>
        match st.dome_move_time with
        | none => Except.error (PyExc.valueError "dome_move_time not correctly set.")
        | some T =>
          if T = 0 then Except.error PyExc.zeroDivisionError
          else if (now - st.dome_move_starttime) / T < 0 then
            Except.error (PyExc.valueError "dt<0: something has gone wrong...")
          else if (now - st.dome_move_starttime) / T < 1 then
            Except.ok
              { st with
                dome_position :=
                  pyMod (old_dome_pos + ((now - st.dome_move_starttime) / T) * dome_delta) 360 }
          else if st.dome_parking then
            Except.ok { st with old_dome_pos := none, dome_delta := none,
                                dome_position := pyMod (old_dome_pos + dome_delta) 360,
                                dome_moving := false, dome_move_time := none,
                                dome_stopped := true, dome_parking := false }
          else
            Except.ok { st with old_dome_pos := none, dome_delta := none,
                                dome_position := pyMod (old_dome_pos + dome_delta) 360,
                                dome_moving := false, dome_move_time := none }

/-- `MockTelescope._update_dome_state`: recompute the position, then
derive the dome state code from the flags, raising on inconsistent
flag combinations. -/
def update_dome_state (st : DomeState) (now : ℚ) : Except PyExc DomeState :=
  match update_dome_position st now with
  | Except.error e => Except.error e
  | Except.ok st1 =>
    if st1.dome_stopped then
      if st1.dome_moving then
        Except.error (PyExc.valueError "Cant be both _dome_stopped and _dome_auto!")
      else
        Except.ok { st1 with dome_delta := none, dome_state := "00" }
    else if st1.dome_moving then
      match st1.dome_delta with
      | none => Except.error (PyExc.valueError "Cant be _dome_moving and no dome_delta")
      | some dome_delta =>
        if st1.dome_parking then
          if st1.dome_auto then
            Except.error (PyExc.valueError "Cant be both dome_parking and _dome_auto!")
          else
            Except.ok { st1 with dome_state := "08" }
        else if st1.dome_auto then
          Except.ok { st1 with dome_state := if dome_delta < 0 then "04" else "05" }
        else
          Except.ok { st1 with dome_state := if dome_delta < 0 then "06" else "07" }
    else if st1.dome_auto then
      Except.ok { st1 with dome_state := "03" }
    else
      Except.error (PyExc.valueError "not moving, not auto, not stopped? dont know this state.")

/-- `MockTelescope.set_dome_position`: validate the target, store the
signed delta `(diff + 180) % 360 - 180` in `loaded_parameters`. -/
def set_dome_position (st : DomeState) (dome_pos : ℚ) : Except PyExc DomeState :=
  if dome_pos < 0 ∨ dome_pos > 360 then
    Except.error (PyExc.valueError "0.0<dome_pos<360.0")
  else
    Except.ok { st with dome_delta := some (pyMod (dome_pos - st.dome_position + 180) 360 - 180) }

/-- `MockTelescope.go_dome_position`: commit the pending delta — move
time `|delta| / DOME_MOVE_RATE`, remember the old position, flag the
move, stamp the start time — then refresh the dome state. -/
def go_dome_position (st : DomeState) (now : ℚ) : Except PyExc DomeState :=
  match st.dome_delta with
  | none => Except.error (PyExc.valueError "dome_delta (signed angle dome has to move) is not set correctly.")
  | some dome_delta =>
    update_dome_state
      { st with dome_move_time := some (|dome_delta| / DOME_MOVE_RATE),
                old_dome_pos := some st.dome_position,
                dome_moving := true,
                dome_move_starttime := now }
      now

theorem pyMod_bounds {a m : ℚ} (hm : 0 < m) : 0 ≤ pyMod a m ∧ pyMod a m < m := by
  have h1 : (⌊a / m⌋ : ℚ) ≤ a / m := Int.floor_le _
  have h2 : a / m < ⌊a / m⌋ + 1 := Int.lt_floor_add_one _
  have hma : m * (a / m) = a := by field_simp
  constructor
  · have := mul_le_mul_of_nonneg_left h1 hm.le
    unfold pyMod
    linarith
  · have := mul_lt_mul_of_pos_left h2 hm
    unfold pyMod
    linarith

theorem pyMod_eq_self {a m : ℚ} (hm : 0 < m) (h0 : 0 ≤ a) (h1 : a < m) :
    pyMod a m = a := by
  have hfloor : ⌊a / m⌋ = 0 := by
    rw [Int.floor_eq_zero_iff]
    constructor
    · exact div_nonneg h0 hm.le
    · rw [div_lt_one hm]
      exact h1
  unfold pyMod
  rw [hfloor]
  ring

/-- A dome in the state reached inside `park_dome` just before it calls
`set_dome_position`/`go_dome_position` while the dome already sits at
`DOME_PARKED_POSITION` (the position it is given at `__init__`). -/
def domeParkSetup : DomeState :=
  { dome_position := 10, dome_state := "00", dome_moving := false, dome_auto := false,
    dome_parking := true, dome_stopped := false, dome_move_time := none,
    dome_move_starttime := 0, dome_delta := none, old_dome_pos := none }

/-- C6 counterexample: a dome move started with a zero signed delta
(`DOPA` parking the dome while it already sits at the parked position)
divides by the zero move duration, so the move raises
`ZeroDivisionError` instead of ever settling at
`(old_position + delta) mod 360`. -/
theorem C6_counterexample :
    (set_dome_position domeParkSetup 10).bind (fun st1 => go_dome_position st1 0) =
      Except.error PyExc.zeroDivisionError := by
  have hdelta : pyMod ((10 : ℚ) - domeParkSetup.dome_position + 180) 360 - 180 = 0 := by
    have harg : (10 : ℚ) - domeParkSetup.dome_position + 180 = 180 := by
      norm_num [domeParkSetup]
    rw [harg, pyMod_eq_self (by norm_num) (by norm_num) (by norm_num)]
    norm_num
  have hset : set_dome_position domeParkSetup 10 =
      Except.ok { domeParkSetup with dome_delta := some 0 } := by
    unfold set_dome_position
    rw [if_neg (by norm_num), hdelta]
  rw [hset]
  show go_dome_position { domeParkSetup with dome_delta := some 0 } 0 =
    Except.error PyExc.zeroDivisionError
  unfold go_dome_position update_dome_state update_dome_position
  norm_num [domeParkSetup, DOME_MOVE_RATE]

theorem update_dome_position_range {st : DomeState} {now : ℚ} {st' : DomeState}
    (h : update_dome_position st now = Except.ok st')
    (h0 : 0 ≤ st.dome_position) (h1 : st.dome_position < 360) :
    0 ≤ st'.dome_position ∧ st'.dome_position < 360 := by
  unfold update_dome_position at h
  split at h
  · cases h
    exact ⟨h0, h1⟩
  · split at h
    · cases h
    · split at h
      · cases h
      · split at h
        · cases h
        · split at h
          · cases h
          · split at h
            · cases h
            · split at h
              · cases h
                exact pyMod_bounds (show (0 : ℚ) < 360 by norm_num)
              · split at h
                · cases h
                  exact pyMod_bounds (show (0 : ℚ) < 360 by norm_num)
                · cases h
                  exact pyMod_bounds (show (0 : ℚ) < 360 by norm_num)

theorem update_dome_position_complete (st : DomeState) (δ old T now : ℚ)
    (hδ : st.dome_delta = some δ) (hmov : st.dome_moving = true)
    (hold : st.old_dome_pos = some old) (hT : st.dome_move_time = some T)
    (hTpos : 0 < T) (hnow : st.dome_move_starttime + T ≤ now)
    (hpark : st.dome_parking = false) :
    update_dome_position st now =
      Except.ok { st with old_dome_pos := none, dome_delta := none,
                          dome_position := pyMod (old + δ) 360,
                          dome_moving := false, dome_move_time := none } := by
  have hf1 : ¬ ((now - st.dome_move_starttime) / T < 1) := by
    rw [not_lt, le_div_iff₀ hTpos]
    linarith
  have hf0 : ¬ ((now - st.dome_move_starttime) / T < 0) := by
    rw [not_lt]
    exact div_nonneg (by linarith) hTpos.le
  unfold update_dome_position
  rw [hδ, hmov, hold, hT]
  dsimp only
  rw [if_neg (by simp), if_neg hTpos.ne', if_neg hf0, if_neg hf1,
    if_neg (by rw [hpark]; simp)]

theorem update_dome_position_complete_parking (st : DomeState) (δ old T now : ℚ)
    (hδ : st.dome_delta = some δ) (hmov : st.dome_moving = true)
    (hold : st.old_dome_pos = some old) (hT : st.dome_move_time = some T)
    (hTpos : 0 < T) (hnow : st.dome_move_starttime + T ≤ now)
    (hpark : st.dome_parking = true) :
    update_dome_position st now =
      Except.ok { st with old_dome_pos := none, dome_delta := none,
                          dome_position := pyMod (old + δ) 360,
                          dome_moving := false, dome_move_time := none,
                          dome_stopped := true, dome_parking := false } := by
  have hf1 : ¬ ((now - st.dome_move_starttime) / T < 1) := by
    rw [not_lt, le_div_iff₀ hTpos]
    linarith
  have hf0 : ¬ ((now - st.dome_move_starttime) / T < 0) := by
    rw [not_lt]
    exact div_nonneg (by linarith) hTpos.le
  unfold update_dome_position
  rw [hδ, hmov, hold, hT]
  dsimp only
  rw [if_neg (by simp), if_neg hTpos.ne', if_neg hf0, if_neg hf1, if_pos hpark]

theorem update_dome_state_settled {st : DomeState} (now : ℚ)
    (hδ : st.dome_delta = none) (hmov : st.dome_moving = false)
    (hflags : (st.dome_stopped = true ∧ st.dome_state = "00") ∨
      (st.dome_stopped = false ∧ st.dome_auto = true ∧ st.dome_state = "03")) :
    update_dome_state st now = Except.ok st := by
  have hpos : update_dome_position st now = Except.ok st := by
    unfold update_dome_position
    rw [hδ]
  unfold update_dome_state
  rw [hpos]
  rcases hflags with ⟨hs, hst⟩ | ⟨hs, ha, hst⟩ <;>
    cases st <;> simp_all

/-- C6 (amended): for every dome move started by
`set_dome_position(p)` / `go_dome_position` whose computed signed delta
is nonzero, in either of the two protocol-reachable modes (auto
tracking, or parking), once the move duration has elapsed the position
query settles at exactly `(old_position + delta) mod 360`, that value
lies in `[0, 360)`, every later query returns the identical settled
state, and every position produced by `_update_dome_position` from a
position in `[0, 360)` stays in `[0, 360)`.  (For a zero delta the
claim is false as stated: the move duration is zero and the query
raises `ZeroDivisionError`, see `C6_counterexample`.) -/
theorem C6_dome_move_settles (st : DomeState) (q t0 t : ℚ)
    (hq0 : 0 ≤ q) (hq1 : q ≤ 360)
    (hstopped : st.dome_stopped = false)
    (hmode : (st.dome_auto = true ∧ st.dome_parking = false) ∨
             (st.dome_auto = false ∧ st.dome_parking = true))
    (hδ : pyMod (q - st.dome_position + 180) 360 - 180 ≠ 0)
    (ht : t0 + |pyMod (q - st.dome_position + 180) 360 - 180| / DOME_MOVE_RATE ≤ t) :
    (∃ st1 st2 st3,
      set_dome_position st q = Except.ok st1 ∧
      go_dome_position st1 t0 = Except.ok st2 ∧
      update_dome_state st2 t = Except.ok st3 ∧
      st3.dome_position =
        pyMod (st.dome_position + (pyMod (q - st.dome_position + 180) 360 - 180)) 360 ∧
      0 ≤ st3.dome_position ∧ st3.dome_position < 360 ∧
      (∀ u, update_dome_state st3 u = Except.ok st3)) ∧
    (∀ (s s' : DomeState) (u : ℚ), update_dome_position s u = Except.ok s' →
      0 ≤ s.dome_position → s.dome_position < 360 →
      0 ≤ s'.dome_position ∧ s'.dome_position < 360) := by
  refine ⟨?_, fun s s' u h h0 h1 => update_dome_position_range h h0 h1⟩
  have hRATE : (0 : ℚ) < DOME_MOVE_RATE := by norm_num [DOME_MOVE_RATE]
  set δ := pyMod (q - st.dome_position + 180) 360 - 180 with hδdef
  set T := |δ| / DOME_MOVE_RATE with hTdef
  have hTpos : 0 < T := div_pos (abs_pos.mpr hδ) hRATE
  have hb := pyMod_bounds (a := st.dome_position + δ) (show (0 : ℚ) < 360 by norm_num)
  have hset : set_dome_position st q = Except.ok { st with dome_delta := some δ } := by
    unfold set_dome_position
    rw [if_neg (by push_neg; exact ⟨hq0, hq1⟩)]
  rcases hmode with ⟨hauto, hpark⟩ | ⟨hauto, hpark⟩
  · refine ⟨{ st with dome_delta := some δ },
      { st with dome_delta := some δ, dome_move_time := some T,
                old_dome_pos := some st.dome_position, dome_moving := true,
                dome_move_starttime := t0,
                dome_position := pyMod st.dome_position 360,
                dome_state := if δ < 0 then "04" else "05" },
      { st with dome_delta := none, dome_move_time := none,
                old_dome_pos := none, dome_moving := false,
                dome_move_starttime := t0,
                dome_position := pyMod (st.dome_position + δ) 360,
                dome_state := "03" },
      hset, ?_, ?_, rfl, hb.1, hb.2, ?_⟩
    · unfold go_dome_position update_dome_state update_dome_position
      dsimp only
      norm_num [sub_self, zero_div, hTpos.ne', hstopped, hauto, hpark]
    · have hupd := update_dome_position_complete
        { st with dome_delta := some δ, dome_move_time := some T,
                  old_dome_pos := some st.dome_position, dome_moving := true,
                  dome_move_starttime := t0,
                  dome_position := pyMod st.dome_position 360,
                  dome_state := if δ < 0 then "04" else "05" }
        δ st.dome_position T t rfl rfl rfl rfl hTpos ht hpark
      unfold update_dome_state
      rw [hupd]
      dsimp only
      simp [hstopped, hauto]
    · intro u
      exact update_dome_state_settled u rfl rfl (Or.inr ⟨hstopped, hauto, rfl⟩)
  · refine ⟨{ st with dome_delta := some δ },
      { st with dome_delta := some δ, dome_move_time := some T,
                old_dome_pos := some st.dome_position, dome_moving := true,
                dome_move_starttime := t0,
                dome_position := pyMod st.dome_position 360,
                dome_state := "08" },
      { st with dome_delta := none, dome_move_time := none,
                old_dome_pos := none, dome_moving := false,
                dome_move_starttime := t0,
                dome_position := pyMod (st.dome_position + δ) 360,
                dome_state := "00", dome_stopped := true, dome_parking := false },
      hset, ?_, ?_, rfl, hb.1, hb.2, ?_⟩
    · unfold go_dome_position update_dome_state update_dome_position
      dsimp only
      norm_num [sub_self, zero_div, hTpos.ne', hstopped, hauto, hpark]
    · have hupd := update_dome_position_complete_parking
        { st with dome_delta := some δ, dome_move_time := some T,
                  old_dome_pos := some st.dome_position, dome_moving := true,
                  dome_move_starttime := t0,
                  dome_position := pyMod st.dome_position 360,
                  dome_state := "08" }
        δ st.dome_position T t rfl rfl rfl rfl hTpos ht hpark
      unfold update_dome_state
      rw [hupd]
      dsimp only
      simp
    · intro u
      exact update_dome_state_settled u rfl rfl (Or.inl ⟨rfl, rfl⟩)

/-- A dome in auto-tracking mode (reached by `DOAM`) at its initial
position. -/
def domeAutoSetup : DomeState :=
  { dome_position := 10, dome_state := "03", dome_moving := false, dome_auto := true,
    dome_parking := false, dome_stopped := false, dome_move_time := none,
    dome_move_starttime := 0, dome_delta := none, old_dome_pos := none }

/-- Witness for `C6_dome_move_settles`: an auto-mode move from azimuth
10 to azimuth 20 started at time 0 and queried at time 100 (the move
takes 50 s). -/
theorem C6_dome_move_settles_witness :
    (∃ st1 st2 st3,
      set_dome_position domeAutoSetup 20 = Except.ok st1 ∧
      go_dome_position st1 0 = Except.ok st2 ∧
      update_dome_state st2 100 = Except.ok st3 ∧
      st3.dome_position =
        pyMod (domeAutoSetup.dome_position +
          (pyMod (20 - domeAutoSetup.dome_position + 180) 360 - 180)) 360 ∧
      0 ≤ st3.dome_position ∧ st3.dome_position < 360 ∧
      (∀ u, update_dome_state st3 u = Except.ok st3)) ∧
    (∀ (s s' : DomeState) (u : ℚ), update_dome_position s u = Except.ok s' →
      0 ≤ s.dome_position → s.dome_position < 360 →
      0 ≤ s'.dome_position ∧ s'.dome_position < 360) :=
  C6_dome_move_settles domeAutoSetup 20 0 100 (by norm_num) (by norm_num) rfl
    (Or.inl ⟨rfl, rfl⟩)
    (by
      rw [show (20 : ℚ) - domeAutoSetup.dome_position + 180 = 190 by
            norm_num [domeAutoSetup],
        pyMod_eq_self (by norm_num) (by norm_num) (by norm_num)]
      norm_num)
    (by
      rw [show (20 : ℚ) - domeAutoSetup.dome_position + 180 = 190 by
            norm_num [domeAutoSetup],
        pyMod_eq_self (by norm_num) (by norm_num) (by norm_num)]
      norm_num [DOME_MOVE_RATE])

/- ------------------------------------------------------------------
Focuser and wheel A (`mock_telescope.py`): the set/go command pairs of
claim C5.
------------------------------------------------------------------ -/

/-- The focuser state of a `MockTelescope`.  `focus_pos` is an `Option`
because `go_focus_position` assigns `self._focus_pos = focus_position`
even when the looked-up `focus_position` is `None`. -/
structure FocusState where
  focus_pos : Option ℚ
  focus_state : String
  focus_starttime : ℚ
  loaded_focus_position : Option ℚ
  loaded_focus_moving_positive : Option Bool
  deriving Repr, DecidableEq

/-- The focuser as `MockTelescope.__init__` leaves it. -/
def focusInit : FocusState :=
  { focus_pos := some 0, focus_state := "00", focus_starttime := 0,
    loaded_focus_position := none, loaded_focus_moving_positive := none }

/-- `MockTelescope.go_focus_position`.  The source builds the message
`Focus position not set! Use FOSA or FOSR first.` when nothing is
loaded, but never raises it: it falls through, stamps the start timer,
and assigns `self._focus_pos = focus_position`, which is `None` in
that case. -/
def go_focus_position (st : FocusState) (now : ℚ) : FocusState :=
  { st with focus_starttime := now, focus_pos := st.loaded_focus_position }

/-- The wheel-A state of a `MockTelescope`. -/
structure WheelAState where
  wheel_a_pos : String
  wheel_a_starttime : ℚ
  loaded_wheel_a_pos : Option String
  deriving Repr, DecidableEq

/-- Wheel A as `MockTelescope.__init__` leaves it. -/
def wheelAInit : WheelAState :=
  { wheel_a_pos := "0", wheel_a_starttime := 0, loaded_wheel_a_pos := none }

/-- `MockTelescope.go_wheel_a`: raises when no `wheel_a_pos` parameter
is loaded (the message text says `wheel_b_pos`, a slip in the source);
otherwise pops it, stamps the timer and stores the position. -/
def go_wheel_a (st : WheelAState) (now : ℚ) : Except PyExc WheelAState :=
  match st.loaded_wheel_a_pos with
  | none => Except.error (PyExc.valueError "wheel_b_pos not set! use WASP first.")
  | some p =>
    Except.ok { st with loaded_wheel_a_pos := none,
                        wheel_a_starttime := now, wheel_a_pos := p }

/-- C5: `go_wheel_a` with no loaded target raises the distinct
precondition error, but `go_focus_position` with no loaded target does
not raise — the source assigns the error message to a variable without
`raise` — and instead starts the transition timer and overwrites the
stored focus position with `None`. -/
theorem C5_go_focus_without_set_is_silent :
    go_wheel_a wheelAInit 5 =
      Except.error (PyExc.valueError "wheel_b_pos not set! use WASP first.") ∧
    go_focus_position focusInit 5 =
      { focusInit with focus_starttime := 5, focus_pos := none } ∧
    ({ focusInit with focus_starttime := 5, focus_pos := none } : FocusState).focus_pos
      ≠ focusInit.focus_pos :=
  ⟨rfl, rfl, by decide⟩

/- ------------------------------------------------------------------
ASCOL and DFOSC command callbacks (`mock_ascol_server.py`,
`mock_dfosc_server.py`): login gating and error conversion.
------------------------------------------------------------------ -/

/-- `MockTelescope.LOGIN_TIMEOUT`. -/
def LOGIN_TIMEOUT : ℚ := 120

/-- `MockTelescope.get_login_status` via `update_login_status`: logged
in iff strictly less than `LOGIN_TIMEOUT` seconds have passed since
`_login_time` (which `gllg_response` stamps with the current time). -/
def get_login_status (login_time now : ℚ) : Bool :=
  decide (now - login_time < LOGIN_TIMEOUT)

/-- `MockAscolServer.REQUIRE_LOGIN`. -/
def REQUIRE_LOGIN : List String := ["TSRA", "TGRA", "WASP", "WAGP", "WBSP", "WBGP"]

/-- The keys of `MockAscolServer._set_responders` (the commented-out
`DOSA`/`DOGA`/`DOCA` entries are absent). -/
def ascolResponderCodes : List String :=
  ["GLRE", "GLSR", "GLLG", "GLLL", "GLUT", "GLSD", "TGRA", "TEON", "TEST",
   "TEFL", "TEPA", "TSRA", "TERS", "DOAM", "DOPA", "DOIN", "DOSO", "DOST",
   "DORA", "DOPO", "DORS", "FCOP", "FCST", "FCRS", "FMOP", "FMST", "FMRS",
   "TRRD", "WASP", "WAGP", "WARP", "WARS", "WBSP", "WBGP", "WBRP", "WBRS",
   "FOSA", "FOSR", "FOGA", "FOGR", "FORA", "FOMI", "FOMA", "FORS", "SHOP",
   "SHRP", "MEBE", "MEBN", "MEBW", "METW", "MEHU", "METE", "MEWS", "MEPR",
   "MEAP", "MEPY", "DOSS"]

/-- What a Python responder returns: a tuple (of values already passed
through `str`), a plain string, or `None`. -/
inductive RVal where
  | tup (xs : List String)
  | str (s : String)
  | none
  deriving Repr, DecidableEq

/-- The tuple join of `ascol_callback`
(`" ".join(str(x) for x in response)`); a plain string or `None`
passes through unchanged. -/
def joinAscolResponse : RVal → Option String
  | RVal.tup xs => some (String.intercalate " " xs)
  | RVal.str s => some s
  | RVal.none => none

/-- The part of the ASCOL gate state `ascol_callback` consults: the
stored telescope state string (read directly as `_tel_state`, `"00"`
meaning switched off) and the login timestamp. -/
structure AscolGateState where
  tel_state : String
  login_time : ℚ
  deriving Repr, DecidableEq

/-- `MockAscolServer.ascol_callback`.  `run` abstracts the looked-up
bound responder applied to the (rstripped) command; the callback
strips the command, takes token 0 (raising `IndexError` on an empty
command, before any gate runs), refuses everything while the
telescope is off, refuses `REQUIRE_LOGIN` commands without a live
login, and otherwise dispatches, converting any responder exception
into the `ERR [...]` token. -/
def ascol_callback (gate : AscolGateState) (now : ℚ)
    (run : String → Except PyExc RVal) (command : String) :
    Except PyExc (Option String) :=
  match pySplit (pyRstrip command) with
  | [] => Except.error PyExc.indexError
  | command_code :: _ =>
    if gate.tel_state = "00" then
      Except.ok (some "ERR [TEL OFF]")
    else if REQUIRE_LOGIN.contains command_code ∧
        get_login_status gate.login_time now = false then
      Except.ok (some "ERR [NO LOGIN]")
    else if ascolResponderCodes.contains command_code then
      match run (pyRstrip command) with
      | Except.ok r => Except.ok (joinAscolResponse r)
      | Except.error e => Except.ok (some ("ERR [" ++ pyExcTypeStr e ++ "]"))
    else
      Except.ok (some "ERR [NO RESPONDER]")

/-- The response normalisation of `dfosc_callback`:
`response = response or ""` (so `None` and the empty tuple become the
empty string), tuples are space-joined, and a newline is appended by
the caller. -/
def joinDfoscResponse : RVal → String
  | RVal.tup xs => String.intercalate " " xs
  | RVal.str s => s
  | RVal.none => ""

/-- `MockDfoscServer.dfosc_callback`.  `run` abstracts the looked-up
responder applied to the (rstripped) command.  Decode errors (commands
shorter than two characters that are not whole-word mnemonics) happen
outside the `try` and propagate; unknown responder codes and responder
exceptions are converted to the bare `ERR` token. -/
def dfosc_callback (run : DfoscHandler → String → Except PyExc RVal)
    (command : String) : Except PyExc String :=
  match dfoscDecode (pyRstrip command) with
  | Except.error e => Except.error e
  | Except.ok code =>
    match dictGet dfoscResponders code with
    | none => Except.ok "ERR"
    | some h =>
      match run h (pyRstrip command) with
      | Except.error _ => Except.ok "ERR"
      | Except.ok r => Except.ok (joinDfoscResponse r ++ "\n")

/-- C3: with the telescope powered on, after `GLLG` stamps the login
time `T0`, every `REQUIRE_LOGIN` command (`TSRA`, `TGRA`, `WASP`,
`WAGP`, `WBSP`, `WBGP`) issued strictly before `T0 + LOGIN_TIMEOUT`
passes the login gate and is dispatched to its responder (all six
codes are in the responder table), and every such command issued after
`T0 + LOGIN_TIMEOUT` is refused with the `ERR [NO LOGIN]` token
instead of being dispatched. -/
theorem C3_login_gate (gate : AscolGateState) (T0 now : ℚ)
    (code : String) (rest : List String) (command : String)
    (hlogin : gate.login_time = T0)
    (hsplit : pySplit (pyRstrip command) = code :: rest)
    (hcode : code ∈ REQUIRE_LOGIN)
    (hpower : gate.tel_state ≠ "00") :
    (now < T0 + LOGIN_TIMEOUT →
      ∀ run, ascol_callback gate now run command =
        (match run (pyRstrip command) with
         | Except.ok r => Except.ok (joinAscolResponse r)
         | Except.error e => Except.ok (some ("ERR [" ++ pyExcTypeStr e ++ "]")))) ∧
    (T0 + LOGIN_TIMEOUT < now →
      ∀ run, ascol_callback gate now run command =
        Except.ok (some "ERR [NO LOGIN]")) := by
  have hresp : ascolResponderCodes.contains code = true := by
    fin_cases hcode <;> decide
  have hreq : REQUIRE_LOGIN.contains code = true := by
    fin_cases hcode <;> decide
  constructor
  · intro hnow run
    have hlog : get_login_status gate.login_time now = true := by
      unfold get_login_status
      rw [hlogin]
      exact decide_eq_true (by linarith)
    unfold ascol_callback
    rw [hsplit]
    dsimp only
    rw [if_neg hpower, if_neg (by rw [hlog]; simp), if_pos hresp]
  · intro hnow run
    have hlog : get_login_status gate.login_time now = false := by
      unfold get_login_status
      rw [hlogin]
      exact decide_eq_false (by linarith)
    unfold ascol_callback
    rw [hsplit]
    dsimp only
    rw [if_neg hpower, if_pos ⟨hreq, hlog⟩]

/-- Witness for `C3_login_gate`: `TGRA` against a powered-on, ready
telescope logged in at time 0, issued at time 100 (gate passes, the
responder result `("1",)` is joined and returned) and at time 121
(gate refuses with `ERR [NO LOGIN]`). -/
theorem C3_login_gate_witness :
    ascol_callback { tel_state := "04", login_time := 0 } 100
      (fun _ => Except.ok (RVal.tup ["1"])) "TGRA" = Except.ok (some "1") ∧
    ascol_callback { tel_state := "04", login_time := 0 } 121
      (fun _ => Except.ok (RVal.tup ["1"])) "TGRA" =
        Except.ok (some "ERR [NO LOGIN]") := by
  constructor
  · have h := (C3_login_gate { tel_state := "04", login_time := 0 } 0 100 "TGRA" []
      "TGRA" rfl (by decide) (by decide) (by decide)).1
      (by norm_num [LOGIN_TIMEOUT]) (fun _ => Except.ok (RVal.tup ["1"]))
    rw [h]
    rfl
  · exact (C3_login_gate { tel_state := "04", login_time := 0 } 0 121 "TGRA" []
      "TGRA" rfl (by decide) (by decide) (by decide)).2
      (by norm_num [LOGIN_TIMEOUT]) (fun _ => Except.ok (RVal.tup ["1"]))

/-- C4 counterexample: decoding happens before the `try` in both
callbacks, so an empty ASCOL command (`command.split()[0]`) and a
one-character unknown DFOSC command (`responder_code[1]`) raise
`IndexError` out of the callback instead of returning the protocol
error token — the exception reaches the transport layer (which
separately catches it in `listen_to_connection`). -/
theorem C4_counterexample :
    ascol_callback { tel_state := "04", login_time := 0 } 0
      (fun _ => Except.ok (RVal.str "x")) "" = Except.error PyExc.indexError ∧
    dfosc_callback (fun _ _ => Except.ok (RVal.str "x")) "z" =
      Except.error PyExc.indexError :=
  ⟨rfl, rfl⟩

theorem dfoscDecode_ok {c : String}
    (h : DFOSC_WHOLE_WORDS.contains (pyLower c) = true ∨ 2 ≤ c.data.length) :
    ∃ code, dfoscDecode c = Except.ok code := by
  by_cases hw : DFOSC_WHOLE_WORDS.contains (pyLower c) = true
  · exact ⟨c, by unfold dfoscDecode; rw [if_pos hw]⟩
  · rcases h with h | h
    · exact absurd h hw
    · unfold dfoscDecode
      rw [if_neg hw]
      rcases hd : c.data with _ | ⟨c0, _ | ⟨c1, cs⟩⟩
      · rw [hd] at h
        simp at h
      · rw [hd] at h
        simp at h
      · dsimp only
        split
        · exact ⟨_, rfl⟩
        · exact ⟨_, rfl⟩

/-- C4 (amended): for every raw command whose decode step succeeds —
an ASCOL command with at least one whitespace-separated token, a DFOSC
command that is a whole-word mnemonic or at least two characters long —
the callback never lets an exception escape: an unknown command code
yields the protocol error token, and a responder that raises any
exception yields the protocol error token.  (Unrestricted, the claim
fails: decode exceptions from empty/too-short commands escape the
callback, see `C4_counterexample`.) -/
theorem C4_decoded_commands_never_raise (gate : AscolGateState) (now : ℚ)
    (runA : String → Except PyExc RVal)
    (runD : DfoscHandler → String → Except PyExc RVal)
    (cmdA cmdD : String)
    (hA : pySplit (pyRstrip cmdA) ≠ [])
    (hD : DFOSC_WHOLE_WORDS.contains (pyLower (pyRstrip cmdD)) = true ∨
      2 ≤ (pyRstrip cmdD).data.length) :
    (∃ r, ascol_callback gate now runA cmdA = Except.ok r) ∧
    (∃ s, dfosc_callback runD cmdD = Except.ok s) ∧
    (∀ code rest, pySplit (pyRstrip cmdA) = code :: rest →
      gate.tel_state ≠ "00" →
      ¬ (REQUIRE_LOGIN.contains code = true ∧
          get_login_status gate.login_time now = false) →
      ascolResponderCodes.contains code = false →
      ascol_callback gate now runA cmdA = Except.ok (some "ERR [NO RESPONDER]")) ∧
    (∀ code rest e, pySplit (pyRstrip cmdA) = code :: rest →
      gate.tel_state ≠ "00" →
      ¬ (REQUIRE_LOGIN.contains code = true ∧
          get_login_status gate.login_time now = false) →
      ascolResponderCodes.contains code = true →
      runA (pyRstrip cmdA) = Except.error e →
      ascol_callback gate now runA cmdA =
        Except.ok (some ("ERR [" ++ pyExcTypeStr e ++ "]"))) ∧
    (∀ h e, dfoscLookup (pyRstrip cmdD) = Except.ok (some h) →
      runD h (pyRstrip cmdD) = Except.error e →
      dfosc_callback runD cmdD = Except.ok "ERR") := by
  refine ⟨?_, ?_, ?_, ?_, ?_⟩
  · obtain ⟨code, rest, hcr⟩ := List.exists_cons_of_ne_nil hA
    unfold ascol_callback
    rw [hcr]
    dsimp only
    split
    · exact ⟨_, rfl⟩
    · split
      · exact ⟨_, rfl⟩
      · split
        · rcases hrr : runA (pyRstrip cmdA) with e | r <;> exact ⟨_, rfl⟩
        · exact ⟨_, rfl⟩
  · obtain ⟨code, hdec⟩ := dfoscDecode_ok hD
    unfold dfosc_callback
    rw [hdec]
    dsimp only
    rcases hg : dictGet dfoscResponders code with _ | h
    · exact ⟨_, rfl⟩
    · dsimp only
      rcases hrr : runD h (pyRstrip cmdD) with e | r <;> exact ⟨_, rfl⟩
  · intro code rest hcr hp hl hnr
    unfold ascol_callback
    rw [hcr]
    dsimp only
    rw [if_neg hp, if_neg hl, if_neg (by rw [hnr]; simp)]
  · intro code rest e hcr hp hl hres hrA
    unfold ascol_callback
    rw [hcr]
    dsimp only
    rw [if_neg hp, if_neg hl, if_pos hres, hrA]
  · intro h e hlook hrr
    unfold dfosc_callback
    unfold dfoscLookup at hlook
    rcases hdec : dfoscDecode (pyRstrip cmdD) with e2 | code <;> rw [hdec] at hlook
    · cases hlook
    · dsimp only at hlook
      have hg : dictGet dfoscResponders code = some h := by
        injection hlook
      dsimp only
      rw [hg]
      dsimp only
      rw [hrr]

/-- Witness for `C4_decoded_commands_never_raise`: `GLLL` (whose
responder raises `NotImplementedError`) against a powered-on,
logged-out telescope, and the DFOSC command `GQ` (whose responder also
raises `NotImplementedError`). -/
theorem C4_decoded_commands_never_raise_witness :
    (∃ r, ascol_callback { tel_state := "04", login_time := 0 } 0
      (fun _ => Except.error PyExc.notImplementedError) "GLLL" = Except.ok r) ∧
    (∃ s, dfosc_callback (fun _ _ => Except.error PyExc.notImplementedError) "GQ" =
      Except.ok s) :=
  ⟨(C4_decoded_commands_never_raise { tel_state := "04", login_time := 0 } 0
      (fun _ => Except.error PyExc.notImplementedError)
      (fun _ _ => Except.error PyExc.notImplementedError) "GLLL" "GQ"
      (by decide) (by decide)).1,
   (C4_decoded_commands_never_raise { tel_state := "04", login_time := 0 } 0
      (fun _ => Except.error PyExc.notImplementedError)
      (fun _ _ => Except.error PyExc.notImplementedError) "GLLL" "GQ"
      (by decide) (by decide)).2.1⟩

/- ------------------------------------------------------------------
Telescope pointing / slew (`mock_telescope.py`: get_waypoint_formula,
set_telescope_position, go_telescope_radec, _update_telescope_state).
------------------------------------------------------------------ -/

/-- `MockTelescope.SLEW_RATE` (deg/sec). -/
def SLEW_RATE : ℚ := 1

/-- `MockTelescope.SKY_FLIP_TIME`. -/
def SKY_FLIP_TIME : ℚ := 10

/-- `get_waypoint_formula` of `mock_telescope.py`: the body defines the
inner `waypoint_formula(f)` (the ed-williams great-circle
interpolation) but the function ends without a `return` statement, so
it returns `None` for every pair of coordinates.  The inner closure is
never observable from outside, hence the faithful model is the
constant `none`. -/
def get_waypoint_formula (_c1 _c2 : ℚ × ℚ) : Option (ℚ → ℚ × ℚ) :=
  none

/-- The pointing-related state of a `MockTelescope`.  `loaded_ra`,
`loaded_dec`, `loaded_tel_pos` are the `loaded_parameters` entries. -/
structure TelSlewState where
  ra : ℚ
  dec : ℚ
  tel_pos : String
  tel_state : String
  tel_on : Bool
  tel_stopped : Bool
  tel_slewing : Bool
  tel_flipping : Bool
  tel_parking : Bool
  slew_starttime : ℚ
  flip_starttime : ℚ
  slew_time : ℚ
  slew_waypoint_formula : Option (ℚ → ℚ × ℚ)
  loaded_ra : Option ℚ
  loaded_dec : Option ℚ
  loaded_tel_pos : Option String

/-- `MockTelescope.set_telescope_position` (the `TSRA` responder):
store ra/dec/pier into `loaded_parameters` (before validation, as the
source does), then validate the pier flag. -/
def set_telescope_position (st : TelSlewState) (ra dec : ℚ) (tel_pos : String) :
    Except PyExc TelSlewState :=
  if tel_pos = "0" ∨ tel_pos = "1" then
    Except.ok { st with loaded_ra := some ra, loaded_dec := some dec,
                        loaded_tel_pos := some tel_pos }
  else
    Except.error (PyExc.valueError "Unknown telescope position: use 0 or 1!")

/-- `MockTelescope.go_telescope_radec` (the `TGRA` responder).  `sep`
is the angular separation in degrees between the current and target
coordinates, delegated to the external astronomy library
(`SkyCoord.separation`).  The three loaded parameters are popped
before the missing-parameter check.  The slew interpolation function
is taken from `get_waypoint_formula`, i.e. it is `None`.  The pier-flip
branch reads the nonexistent attribute `self.FLIP_TIME` (the class
constant is `SKY_FLIP_TIME`), raising `AttributeError`; the partial
mutations performed before that raise are not modelled. -/
def go_telescope_radec (st0 : TelSlewState) (now sep : ℚ) : Except PyExc TelSlewState :=
  match st0.loaded_ra, st0.loaded_dec, st0.loaded_tel_pos with
  | some ra, some dec, some tel_pos =>
    let st1 : TelSlewState :=
      { st0 with loaded_ra := none, loaded_dec := none, loaded_tel_pos := none,
                 slew_waypoint_formula := get_waypoint_formula (st0.ra, st0.dec) (ra, dec),
                 slew_time := sep / SLEW_RATE,
                 tel_stopped := false }
    if tel_pos = st0.tel_pos then
      Except.ok { st1 with tel_slewing := true, slew_starttime := now }
    else
      Except.error PyExc.attributeError
  | _, _, _ =>
    Except.error (PyExc.valueError "One of ra, dec, pos not set. Use TSRA!")

/-- `MockTelescope._update_telescope_state` at wall-clock `now`,
restricted to the pointing state machine.  The trailing
`update_radec_from_altaz` / `update_altaz_from_radec` calls delegate
to the external astronomy library to refresh the redundant second
representation of the same pointing and are omitted.  The flip branch
and the slewing branch run in sequence as in the source; the slew
fraction `f = dt / self.slew_time` raises `ZeroDivisionError` on a
zero-length slew, and the finalisation pops `loaded_parameters["ra"]`
etc. without defaults, raising `KeyError` when absent. -/
def update_telescope_state (st : TelSlewState) (now : ℚ) : Except PyExc TelSlewState :=
  if st.tel_stopped then
    Except.ok { st with tel_state := if st.tel_on then "04" else "00" }
  else
    let stF : TelSlewState :=
      if st.tel_flipping then
        if now - st.flip_starttime < SKY_FLIP_TIME then
          { st with tel_state := "09" }
        else if now - st.slew_starttime < st.slew_time then
          { st with tel_flipping := false, tel_slewing := true }
        else
          { st with tel_flipping := false }
      else st
    if stF.tel_slewing then
      if stF.slew_time = 0 then Except.error PyExc.zeroDivisionError
      else if (now - stF.slew_starttime) / stF.slew_time < 0 then
        Except.error (PyExc.valueError "something went wrong: f <0")
      else if (now - stF.slew_starttime) / stF.slew_time < 1 then
        match stF.slew_waypoint_formula with
        | none =>
          Except.error (PyExc.valueError "slew waypoint formula not set correctly")
        | some w =>
          Except.ok
            { stF with
              ra := (w ((now - stF.slew_starttime) / stF.slew_time)).1,
              dec := (w ((now - stF.slew_starttime) / stF.slew_time)).2,
              tel_state := if stF.tel_parking then "10" else "07" }
      else
        match stF.loaded_ra, stF.loaded_dec, stF.loaded_tel_pos with
        | some ra, some dec, some tel_pos =>
          if stF.tel_parking then
            Except.ok
              { stF with
                ra := ra, dec := dec, tel_pos := tel_pos,
                loaded_ra := none, loaded_dec := none, loaded_tel_pos := none,
                tel_slewing := false, tel_parking := false, tel_on := false,
                tel_stopped := true, tel_state := "00" }
          else
            Except.ok
              { stF with
                ra := ra, dec := dec, tel_pos := tel_pos,
                loaded_ra := none, loaded_dec := none, loaded_tel_pos := none,
                tel_slewing := false, tel_state := "05" }
        | _, _, _ => Except.error (PyExc.keyError "ra")
    else
      Except.ok { stF with tel_state := "05" }

/-- A powered-on, ready, stationary telescope pointing at
(ra 30°, dec −45°) on pier side 0. -/
def telReady : TelSlewState :=
  { ra := 30, dec := -45, tel_pos := "0", tel_state := "04", tel_on := true,
    tel_stopped := true, tel_slewing := false, tel_flipping := false,
    tel_parking := false, slew_starttime := 0, flip_starttime := 0,
    slew_time := 10, slew_waypoint_formula := none, loaded_ra := none,
    loaded_dec := none, loaded_tel_pos := none }

/-- The state `telReady` reaches after `TSRA 40 −45 0` and `TGRA` at
time 0 with a 10° separation. -/
def telSlewing : TelSlewState :=
  { telReady with loaded_ra := none, loaded_dec := none, loaded_tel_pos := none,
                  slew_waypoint_formula := get_waypoint_formula (30, -45) (40, -45),
                  slew_time := 10 / SLEW_RATE,
                  tel_stopped := false, tel_slewing := true, slew_starttime := 0 }

/-- The state `telReady` reaches after `TSRA 40 -45 0` loads the
target. -/
def telLoaded : TelSlewState :=
  { telReady with loaded_ra := some 40, loaded_dec := some (-45),
                  loaded_tel_pos := some "0" }

/-- C1: `get_waypoint_formula` never returns the interpolation
function it defines (the `return waypoint_formula` statement is
missing), so `_slew_waypoint_formula` is `None` for every slew, and
the first mid-slew state query (`0 ≤ f < 1`) raises
`ValueError("slew waypoint formula not set correctly")` instead of
returning a coordinate on the great-circle path.  Evaluated end to end
on a concrete 10° slew queried halfway through. -/
theorem C1_waypoint_formula_never_returned :
    (∀ c1 c2 : ℚ × ℚ, get_waypoint_formula c1 c2 = none) ∧
    set_telescope_position telReady 40 (-45) "0" = Except.ok telLoaded ∧
    go_telescope_radec telLoaded 0 10 = Except.ok telSlewing ∧
    update_telescope_state telSlewing 5 =
      Except.error (PyExc.valueError "slew waypoint formula not set correctly") := by
  refine ⟨fun c1 c2 => rfl, rfl, rfl, ?_⟩
  unfold update_telescope_state
  norm_num [telSlewing, telReady, SLEW_RATE, get_waypoint_formula]
